import Mathlib

/-
Verification of the image-hospital access-control core.

Shallow embedding of the TypeScript source:
- modules/upload-orchestration/index.ts : validateUploadInput, uploadImage,
  parseSupportedFileTypes, MAX_IMAGE_BYTES, EXPIRY_DURATION_MS
- the access orchestration module : isTokenExpired, accessImage,
  CLOCK_SKEW_TOLERANCE_MS
- modules/metadata-store : TokenMetadata, the put/get interface
- modules/token-service/index.ts : generateToken

Buffers are modelled as List Nat (byte values), epoch milliseconds as Int.
The injected dependencies (blob store, token service, metadata index) are
modelled as explicit state-passing functions returning Option, where none
models a rejected promise (a thrown error). Invocations of the
dependencies are recorded in an event trace so that claims about which
collaborators were touched can be stated.
-/

namespace ImageHospital

/-- Clock skew tolerance: plus or minus 5 seconds (in milliseconds).
Source: CLOCK_SKEW_TOLERANCE_MS = 5_000. -/
def CLOCK_SKEW_TOLERANCE_MS : Int := 5000

/-- Maximum allowed image size in bytes (5 MiB).
Source: MAX_IMAGE_BYTES = 5 * 1024 * 1024. -/
def MAX_IMAGE_BYTES : Nat := 5 * 1024 * 1024

/-- URL expiry duration in milliseconds (60 seconds).
Source: EXPIRY_DURATION_MS = 60_000. -/
def EXPIRY_DURATION_MS : Int := 60000

/-- Metadata record stored in the metadata index.
Source interface TokenMetadata in modules/metadata-store: exactly the two
fields blobRef and expiresAtEpochMs (the PostgreSQL schema likewise has
columns token, blob_ref, expires_at_epoch_ms only). -/
structure TokenMetadata where
  blobRef : String
  expiresAtEpochMs : Int
deriving DecidableEq, Repr

/-- Centralized expiration check with clock skew tolerance.
Source: isTokenExpired returns nowMs > expiresAtEpochMs + CLOCK_SKEW_TOLERANCE_MS. -/
def isTokenExpired (nowMs expiresAtEpochMs : Int) : Bool :=
  nowMs > expiresAtEpochMs + CLOCK_SKEW_TOLERANCE_MS

/-- Characters removed by the ECMAScript String.prototype.trim, i.e. the
WhiteSpace and LineTerminator productions: TAB, LF, VT, FF, CR, SP, NBSP,
OGHAM SPACE MARK, the Zs spaces U+2000..U+200A, LS, PS, NARROW NBSP,
MEDIUM MATHEMATICAL SPACE, IDEOGRAPHIC SPACE and ZWNBSP. -/
def isJsWhitespace (c : Char) : Bool :=
  (0x9 ≤ c.toNat && c.toNat ≤ 0xD) || c.toNat = 0x20 || c.toNat = 0xA0 ||
  c.toNat = 0x1680 || (0x2000 ≤ c.toNat && c.toNat ≤ 0x200A) ||
  c.toNat = 0x2028 || c.toNat = 0x2029 || c.toNat = 0x202F ||
  c.toNat = 0x205F || c.toNat = 0x3000 || c.toNat = 0xFEFF

/-- The syntactic token guard of accessImage.
Source: the check (not token) or token.trim() being empty, which holds
exactly when every character of the token is JavaScript whitespace
(vacuously for the empty string, which is falsy). -/
def isBlankToken (token : String) : Bool :=
  token.data.all isJsWhitespace

/-- Reason attached to a denied access outcome.
Source type AccessDeniedReason. -/
inductive AccessDeniedReason
  | missing
  | expired
  | invalid
deriving DecidableEq, Repr

/-- Metadata echoed back on a successful access.
Source: the object with fields token, blobRef, expiresAtEpochMs built in
step 5 of accessImage. -/
structure AccessMetadata where
  token : String
  blobRef : String
  expiresAtEpochMs : Int
deriving DecidableEq, Repr

/-- Result of an access request. Source type AccessResult. -/
inductive AccessResult
  | allowed (blob : List Nat) (metadata : AccessMetadata)
  | denied (reason : AccessDeniedReason)
deriving DecidableEq, Repr

/-- Observable invocations of the collaborators during an access request. -/
inductive AccessEvent
  | metadataGet (token : String)
  | blobGet (blobRef : String)
deriving DecidableEq, Repr

/-- Image access orchestration. Source: accessImage.
The metadata index get is modelled by mget (none models a null result),
the blob store get by bget (none models a rejected promise, which
accessImage does not catch: modelled as the Except error). The returned
list records the dependency invocations in order. -/
def accessImage (token : String) (mget : String → Option TokenMetadata)
    (bget : String → Option (List Nat)) (nowMs : Int) :
    Except Unit AccessResult × List AccessEvent :=
  if isBlankToken token then
    (.ok (.denied .invalid), [])
  else
    match mget token with
    | none => (.ok (.denied .missing), [.metadataGet token])
    | some metadata =>
      if isTokenExpired nowMs metadata.expiresAtEpochMs then
        (.ok (.denied .expired), [.metadataGet token])
      else
        match bget metadata.blobRef with
        | none => (.error (), [.metadataGet token, .blobGet metadata.blobRef])
        | some blob =>
          (.ok (.allowed blob
              { token := token, blobRef := metadata.blobRef,
                expiresAtEpochMs := metadata.expiresAtEpochMs }),
            [.metadataGet token, .blobGet metadata.blobRef])

/-- Upload request. Source interface UploadRequest: raw image bytes,
declared MIME type and optional original filename. -/
structure UploadRequest where
  data : List Nat
  contentType : String
  filename : Option String
deriving DecidableEq, Repr

/-- Upload result. Source interface UploadResult. -/
structure UploadResult where
  token : String
  blobRef : String
  expiresAtEpochMs : Int
deriving DecidableEq, Repr

/-- Options passed to the blob store save.
Source: the object with contentType and filename built at the save call in
uploadImage. -/
structure BlobSaveOptions where
  contentType : String
  filename : Option String
deriving DecidableEq, Repr

/-- Validation failures raised by validateUploadInput, one per distinct
message of UploadValidationError (the instanceof Buffer guard is a
type-level check that cannot fail in this typed embedding and is
therefore not represented). -/
inductive UploadError
  | emptyData
  | tooLarge
  | missingContentType
  | unsupportedType
deriving DecidableEq, Repr

/-- Overall upload failure: a validation error, or a rejected promise from
one of the three injected collaborators (uploadImage has no catch, so
those rejections propagate). -/
inductive UploadFailure
  | validation (e : UploadError)
  | blobStoreError
  | tokenServiceError
  | metadataStoreError
deriving DecidableEq, Repr

/-- Observable invocations of the collaborators during an upload. -/
inductive UploadEvent
  | blobSave (data : List Nat) (options : BlobSaveOptions)
  | tokenMint
  | metadataPut (token : String) (blobRef : String) (expiresAtEpochMs : Int)
deriving DecidableEq, Repr

/-- Split of a character list at a separator, the JavaScript
String.prototype.split semantics used by parseSupportedFileTypes (split
of the empty string yields one empty part; adjacent separators yield
empty parts). -/
def splitOnChar (sep : Char) : List Char → List (List Char)
  | [] => [[]]
  | c :: rest =>
    match splitOnChar sep rest, decide (c = sep) with
    | r, true => [] :: r
    | [], false => [[c]]
    | g :: gs, false => (c :: g) :: gs

/-- The JavaScript String.prototype.trim on a character list: drop leading
and trailing whitespace. -/
def trimChars (cs : List Char) : List Char :=
  ((cs.dropWhile isJsWhitespace).reverse.dropWhile isJsWhitespace).reverse

/-- The JavaScript String.prototype.toLowerCase on one character,
restricted to the ASCII range that the configuration strings use. -/
def toLowerChar (c : Char) : Char :=
  if 65 ≤ c.toNat ∧ c.toNat ≤ 90 then Char.ofNat (c.toNat + 32) else c

/-- Boolean character-list prefix test, the JavaScript
String.prototype.startsWith used by parseSupportedFileTypes. -/
def isPrefixOfChars : List Char → List Char → Bool
  | [], _ => true
  | _ :: _, [] => false
  | a :: as, b :: bs => a = b && isPrefixOfChars as bs

/-- Expansion of one configured file-type shorthand to a MIME type.
Source: the switch inside parseSupportedFileTypes. -/
def mapFileTypeShorthand (part : String) : String :=
  if part = "jpeg" ∨ part = "jpg" then "image/jpeg"
  else if part = "png" then "image/png"
  else if part = "gif" then "image/gif"
  else if part = "webp" then "image/webp"
  else if isPrefixOfChars "image/".data part.data then part
  else "image/" ++ part

/-- Parse the supported file types string into the accepted MIME types.
Source: parseSupportedFileTypes (split on comma, trim, lower-case, drop
empty parts, expand shorthands; the Set is modelled as a list queried by
membership). -/
def parseSupportedFileTypes (fileTypes : String) : List String :=
  (((splitOnChar ',' fileTypes.data).map
      (fun cs => String.mk ((trimChars cs).map toLowerChar))).filter
    (fun s => s.length > 0)).map mapFileTypeShorthand

/-- Input validation. Source: validateUploadInput, checks in source order:
empty data, size cap, missing contentType (the empty string is falsy),
unsupported contentType. -/
def validateUploadInput (input : UploadRequest) (supportedImageTypes : List String) :
    Except UploadError Unit :=
  if input.data.length = 0 then .error .emptyData
  else if input.data.length > MAX_IMAGE_BYTES then .error .tooLarge
  else if input.contentType = "" then .error .missingContentType
  else if supportedImageTypes.contains input.contentType then .ok ()
  else .error .unsupportedType

/-- Injected upload dependencies over an abstract external-world state σ.
Source interface UploadDependencies: save of the blob store, generateToken
of the token service, put of the metadata store, the clock and the
supportedFileTypes configuration string. A none result models a rejected
promise; successful calls return the value together with the successor
world state. -/
structure UploadDeps (σ : Type) where
  save : σ → List Nat → BlobSaveOptions → Option (String × σ)
  generateToken : σ → Option (String × σ)
  put : σ → String → String → Int → Option σ
  nowMs : Int
  supportedFileTypes : Option String

/-- Resolution of the supportedFileTypes configuration.
Source: deps.supportedFileTypes followed by the default string
(the absent value and the empty string are both falsy). -/
def resolveSupportedFileTypes (cfg : Option String) : String :=
  match cfg with
  | some s => if s = "" then "jpeg,jpg,png,webp" else s
  | none => "jpeg,jpg,png,webp"

/-- Upload orchestration. Source: uploadImage. Steps in source order:
resolve the supported-types configuration, validate, save the blob, mint
a token, compute expiry as now + EXPIRY_DURATION_MS, persist metadata.
Returns the result, the ordered dependency-invocation trace and the final
world state. -/
def uploadImage {σ : Type} (input : UploadRequest) (deps : UploadDeps σ) (st : σ) :
    Except UploadFailure UploadResult × List UploadEvent × σ :=
  match validateUploadInput input
      (parseSupportedFileTypes (resolveSupportedFileTypes deps.supportedFileTypes)) with
  | .error e => (.error (.validation e), [], st)
  | .ok _ =>
    match deps.save st input.data ⟨input.contentType, input.filename⟩ with
    | none => (.error .blobStoreError,
        [.blobSave input.data ⟨input.contentType, input.filename⟩], st)
    | some (blobRef, st1) =>
      match deps.generateToken st1 with
      | none => (.error .tokenServiceError,
          [.blobSave input.data ⟨input.contentType, input.filename⟩, .tokenMint], st1)
      | some (token, st2) =>
        match deps.put st2 token blobRef (deps.nowMs + EXPIRY_DURATION_MS) with
        | none => (.error .metadataStoreError,
            [.blobSave input.data ⟨input.contentType, input.filename⟩, .tokenMint,
              .metadataPut token blobRef (deps.nowMs + EXPIRY_DURATION_MS)], st2)
        | some st3 =>
          (.ok ⟨token, blobRef, deps.nowMs + EXPIRY_DURATION_MS⟩,
            [.blobSave input.data ⟨input.contentType, input.filename⟩, .tokenMint,
              .metadataPut token blobRef (deps.nowMs + EXPIRY_DURATION_MS)], st3)

/-- Combined state of a well-behaved blob store and metadata index, both
modelled as association lists where the newest entry wins, satisfying the
adapter contracts of the source (get after put returns the stored record;
get after save returns the identical bytes). -/
structure Stores where
  metadata : List (String × TokenMetadata)
  blobs : List (String × List Nat)
deriving DecidableEq, Repr

/-- A storage reference unused by any entry a well-behaved store has
produced so far (the local adapter pattern of reference strings chosen by
the store). -/
def freshBlobRef (blobs : List (String × List Nat)) : String :=
  "blob-" ++ toString blobs.length

/-- Metadata index get over the association-list model.
Source contract: get returns the record put under the token, or null. -/
def mdGet (md : List (String × TokenMetadata)) (token : String) : Option TokenMetadata :=
  (md.find? (fun p => p.fst == token)).map Prod.snd

/-- Blob store get over the association-list model.
Source contract: get returns the bytes saved under the reference. -/
def blobGet (blobs : List (String × List Nat)) (ref : String) : Option (List Nat) :=
  (blobs.find? (fun p => p.fst == ref)).map Prod.snd

/-- Well-behaved dependencies backed by the Stores state: save stores the
bytes under a fresh reference, the token service yields the given token,
put prepends the record, the clock reads nowMs, and the configuration
string is absent (so the default applies). -/
def storeDeps (nowMs : Int) (token : String) : UploadDeps Stores where
  save := fun st data _options =>
    some (freshBlobRef st.blobs,
      { st with blobs := (freshBlobRef st.blobs, data) :: st.blobs })
  generateToken := fun st => some (token, st)
  put := fun st t b x =>
    some { st with
      metadata := (t, { blobRef := b, expiresAtEpochMs := x }) :: st.metadata }
  nowMs := nowMs
  supportedFileTypes := none

namespace TokenService

/-- Alphanumeric character set (A-Z, a-z, 0-9). Source: ALPHANUMERIC in
modules/token-service. -/
def ALPHANUMERIC : String :=
  "ABCDEFGHIJKLMNOPQRSTUVWXYZabcdefghijklmnopqrstuvwxyz0123456789"

/-- Token generation. Source: generateToken in modules/token-service draws
8 cryptographically random bytes and maps each byte modulo 62 to a
character of ALPHANUMERIC, concatenating the 8 characters. The random
bytes are made an explicit input of the embedding. -/
def generateToken (randomBytes : Fin 8 → Fin 256) : String :=
  String.mk ((List.finRange 8).map
    (fun i => ALPHANUMERIC.data.getD ((randomBytes i).val % 62) 'A'))

end TokenService

/-- Helper: complete case analysis of an upload run, one disjunct per
control path of uploadImage, each recording the dependency results along
the path and the full output of the run. -/
theorem uploadImage_cases {σ : Type} (input : UploadRequest) (deps : UploadDeps σ)
    (st : σ) :
    (∃ e, validateUploadInput input
        (parseSupportedFileTypes (resolveSupportedFileTypes deps.supportedFileTypes)) =
          .error e ∧
      uploadImage input deps st = (.error (.validation e), [], st)) ∨
    (validateUploadInput input
        (parseSupportedFileTypes (resolveSupportedFileTypes deps.supportedFileTypes)) =
          .ok () ∧
      ((deps.save st input.data ⟨input.contentType, input.filename⟩ = none ∧
         uploadImage input deps st = (.error .blobStoreError,
           [.blobSave input.data ⟨input.contentType, input.filename⟩], st)) ∨
       (∃ b st1, deps.save st input.data ⟨input.contentType, input.filename⟩ =
            some (b, st1) ∧
         ((deps.generateToken st1 = none ∧
            uploadImage input deps st = (.error .tokenServiceError,
              [.blobSave input.data ⟨input.contentType, input.filename⟩,
                .tokenMint], st1)) ∨
          (∃ t st2, deps.generateToken st1 = some (t, st2) ∧
            ((deps.put st2 t b (deps.nowMs + EXPIRY_DURATION_MS) = none ∧
               uploadImage input deps st = (.error .metadataStoreError,
                 [.blobSave input.data ⟨input.contentType, input.filename⟩,
                   .tokenMint,
                   .metadataPut t b (deps.nowMs + EXPIRY_DURATION_MS)], st2)) ∨
             (∃ st3, deps.put st2 t b (deps.nowMs + EXPIRY_DURATION_MS) =
                  some st3 ∧
               uploadImage input deps st =
                 (.ok ⟨t, b, deps.nowMs + EXPIRY_DURATION_MS⟩,
                   [.blobSave input.data ⟨input.contentType, input.filename⟩,
                     .tokenMint,
                     .metadataPut t b (deps.nowMs + EXPIRY_DURATION_MS)],
                   st3)))))))) := by
  cases hv : validateUploadInput input
      (parseSupportedFileTypes (resolveSupportedFileTypes deps.supportedFileTypes)) with
  | error e => exact .inl ⟨e, rfl, by simp [uploadImage, hv]⟩
  | ok u =>
    cases u
    cases hs : deps.save st input.data ⟨input.contentType, input.filename⟩ with
    | none => exact .inr ⟨rfl, .inl ⟨rfl, by simp [uploadImage, hv, hs]⟩⟩
    | some p =>
      obtain ⟨b, st1⟩ := p
      cases hg : deps.generateToken st1 with
      | none => exact .inr ⟨rfl, .inr ⟨b, st1, rfl,
          .inl ⟨hg, by simp [uploadImage, hv, hs, hg]⟩⟩⟩
      | some q =>
        obtain ⟨t, st2⟩ := q
        cases hp : deps.put st2 t b (deps.nowMs + EXPIRY_DURATION_MS) with
        | none => exact .inr ⟨rfl, .inr ⟨b, st1, rfl, .inr
            ⟨t, st2, hg, .inl ⟨hp, by simp [uploadImage, hv, hs, hg, hp]⟩⟩⟩⟩
        | some st3 => exact .inr ⟨rfl, .inr ⟨b, st1, rfl, .inr
            ⟨t, st2, hg, .inr ⟨st3, hp, by simp [uploadImage, hv, hs, hg, hp]⟩⟩⟩⟩

/-- C1: Expiry policy boundary. For a record with expiry instant E and the
skew constant s = 5000 ms, an access evaluated at clock reading nowMs is
denied as expired exactly when nowMs > E + s, and whenever nowMs ≤ E + s
the time policy allows it and the access succeeds with the stored blob. -/
theorem expiry_policy_boundary (token : String)
    (mget : String → Option TokenMetadata) (bget : String → Option (List Nat))
    (nowMs : Int) (md : TokenMetadata) (blob : List Nat)
    (hTok : isBlankToken token = false) (hm : mget token = some md)
    (hb : bget md.blobRef = some blob) :
    ((accessImage token mget bget nowMs).fst =
        .ok (.denied .expired) ↔ nowMs > md.expiresAtEpochMs + 5000) ∧
    (nowMs ≤ md.expiresAtEpochMs + 5000 →
      (accessImage token mget bget nowMs).fst =
        .ok (.allowed blob ⟨token, md.blobRef, md.expiresAtEpochMs⟩)) := by
  by_cases hc : nowMs > md.expiresAtEpochMs + 5000
  · have hexp : isTokenExpired nowMs md.expiresAtEpochMs = true := by
      simp only [isTokenExpired, CLOCK_SKEW_TOLERANCE_MS, decide_eq_true_eq]
      exact hc
    refine ⟨⟨fun _ => hc, fun _ => ?_⟩, fun hle => absurd hc (not_lt.mpr hle)⟩
    simp [accessImage, hTok, hm, hexp]
  · have hexp : isTokenExpired nowMs md.expiresAtEpochMs = false := by
      simp only [isTokenExpired, CLOCK_SKEW_TOLERANCE_MS, decide_eq_false_iff_not]
      exact hc
    have hres : (accessImage token mget bget nowMs).fst =
        .ok (.allowed blob ⟨token, md.blobRef, md.expiresAtEpochMs⟩) := by
      simp [accessImage, hTok, hm, hexp, hb]
    refine ⟨⟨fun h => ?_, fun h => absurd h hc⟩, fun _ => hres⟩
    rw [hres] at h
    simp at h

/-- C1 witness: boundary behaviors at E = 1 000 000 and s = 5 000; access
at now = E, E+1, E+s-1 and E+s is allowed, at now = E+s+1 it is
denied(expired). -/
theorem expiry_policy_boundary_witness :
    ((accessImage "tok" (fun t => if t = "tok" then some ⟨"ref", 1000000⟩ else none)
        (fun r => if r = "ref" then some [7] else none) 1000000).fst =
      .ok (.allowed [7] ⟨"tok", "ref", 1000000⟩)) ∧
    ((accessImage "tok" (fun t => if t = "tok" then some ⟨"ref", 1000000⟩ else none)
        (fun r => if r = "ref" then some [7] else none) 1000001).fst =
      .ok (.allowed [7] ⟨"tok", "ref", 1000000⟩)) ∧
    ((accessImage "tok" (fun t => if t = "tok" then some ⟨"ref", 1000000⟩ else none)
        (fun r => if r = "ref" then some [7] else none) 1004999).fst =
      .ok (.allowed [7] ⟨"tok", "ref", 1000000⟩)) ∧
    ((accessImage "tok" (fun t => if t = "tok" then some ⟨"ref", 1000000⟩ else none)
        (fun r => if r = "ref" then some [7] else none) 1005000).fst =
      .ok (.allowed [7] ⟨"tok", "ref", 1000000⟩)) ∧
    ((accessImage "tok" (fun t => if t = "tok" then some ⟨"ref", 1000000⟩ else none)
        (fun r => if r = "ref" then some [7] else none) 1005001).fst =
      .ok (.denied .expired)) := by
  refine ⟨?_, ?_, ?_, ?_, ?_⟩
  · exact (expiry_policy_boundary "tok" _ _ 1000000 ⟨"ref", 1000000⟩ [7]
      (by decide) rfl rfl).2 (by norm_num)
  · exact (expiry_policy_boundary "tok" _ _ 1000001 ⟨"ref", 1000000⟩ [7]
      (by decide) rfl rfl).2 (by norm_num)
  · exact (expiry_policy_boundary "tok" _ _ 1004999 ⟨"ref", 1000000⟩ [7]
      (by decide) rfl rfl).2 (by norm_num)
  · exact (expiry_policy_boundary "tok" _ _ 1005000 ⟨"ref", 1000000⟩ [7]
      (by decide) rfl rfl).2 (by norm_num)
  · exact (expiry_policy_boundary "tok" _ _ 1005001 ⟨"ref", 1000000⟩ [7]
      (by decide) rfl rfl).1.mpr (by norm_num)

/-- C2: Deny-by-default without blob retrieval. For every access request
(any token, any metadata contents, any clock reading) whose result is a
denied outcome, the blob store get is never invoked during that request. -/
theorem denied_access_no_blob_get (token : String)
    (mget : String → Option TokenMetadata) (bget : String → Option (List Nat))
    (nowMs : Int) (reason : AccessDeniedReason)
    (h : (accessImage token mget bget nowMs).fst = .ok (.denied reason)) :
    ∀ ref, AccessEvent.blobGet ref ∉ (accessImage token mget bget nowMs).snd := by
  intro ref
  by_cases hbl : isBlankToken token
  · simp [accessImage, hbl]
  · cases hmg : mget token with
    | none => simp [accessImage, hbl, hmg]
    | some md =>
      by_cases hex : isTokenExpired nowMs md.expiresAtEpochMs
      · simp [accessImage, hbl, hmg, hex]
      · cases hbg : bget md.blobRef with
        | none => simp [accessImage, hbl, hmg, hex, hbg] at h
        | some blob => simp [accessImage, hbl, hmg, hex, hbg] at h

/-- C2 witness: the denied(missing) access to an absent token performs no
blob store get. -/
theorem denied_access_no_blob_get_witness :
    AccessEvent.blobGet "ref" ∉
      (accessImage "absent" (fun _ => none) (fun _ => some [7]) 0).snd :=
  denied_access_no_blob_get "absent" (fun _ => none) (fun _ => some [7]) 0
    .missing rfl "ref"

/-- Trivial always-successful upload dependencies with the clock pinned at
1 000 000 ms, used to instantiate concrete runs. -/
def witnessDeps : UploadDeps Unit where
  save := fun st _data _options => some ("ref", st)
  generateToken := fun st => some ("tok", st)
  put := fun st _t _b _x => some st
  nowMs := 1000000
  supportedFileTypes := none

/-- C5: Expiry arithmetic. For every successful upload, the expiry instant
returned to the caller and written to the metadata index equals exactly
the clock reading taken during that upload plus 60 000 ms. -/
theorem upload_expiry_arithmetic {σ : Type} (input : UploadRequest)
    (deps : UploadDeps σ) (st : σ) (r : UploadResult)
    (h : (uploadImage input deps st).fst = .ok r) :
    r.expiresAtEpochMs = deps.nowMs + EXPIRY_DURATION_MS ∧
    UploadEvent.metadataPut r.token r.blobRef (deps.nowMs + EXPIRY_DURATION_MS) ∈
      (uploadImage input deps st).snd.fst := by
  rcases uploadImage_cases input deps st with
      ⟨e0, hv, heq⟩ | ⟨hv, ⟨hs, heq⟩ | ⟨b, st1, hs, ⟨hg, heq⟩ |
        ⟨t, st2, hg, ⟨hp, heq⟩ | ⟨st3, hp, heq⟩⟩⟩⟩ <;> rw [heq] at h
  · simp at h
  · simp at h
  · simp at h
  · simp at h
  · simp only [Except.ok.injEq] at h
    subst h
    rw [heq]
    exact ⟨rfl, by simp⟩

/-- C5 witness: a successful concrete upload at clock 1 000 000 yields
expiry 1 060 000 both in the returned result and in the record put into
the metadata index. -/
theorem upload_expiry_arithmetic_witness :
    (⟨"tok", "ref", 1060000⟩ : UploadResult).expiresAtEpochMs =
      1000000 + EXPIRY_DURATION_MS ∧
    UploadEvent.metadataPut "tok" "ref" (1000000 + EXPIRY_DURATION_MS) ∈
      (uploadImage ⟨[1], "image/jpeg", none⟩ witnessDeps ()).snd.fst :=
  upload_expiry_arithmetic ⟨[1], "image/jpeg", none⟩ witnessDeps ()
    ⟨"tok", "ref", 1060000⟩ (by rfl)

/-- C7: Upload atomicity on failure. For every upload that fails, if
validation rejected the input then no collaborator was invoked at all; if
the blob save failed then no token was minted and no metadata put was
invoked; if token minting failed then no metadata put was invoked; and
the remaining failure is exactly a failed metadata put, so in no failing
upload is a metadata record written. -/
theorem upload_fault_isolation {σ : Type} (input : UploadRequest)
    (deps : UploadDeps σ) (st : σ) (f : UploadFailure)
    (h : (uploadImage input deps st).fst = .error f) :
    (∀ e, f = .validation e → (uploadImage input deps st).snd.fst = []) ∧
    (f = .blobStoreError → (uploadImage input deps st).snd.fst =
      [.blobSave input.data ⟨input.contentType, input.filename⟩]) ∧
    (f = .tokenServiceError → (uploadImage input deps st).snd.fst =
      [.blobSave input.data ⟨input.contentType, input.filename⟩, .tokenMint]) ∧
    (f = .metadataStoreError → ∃ b st1 t st2,
      deps.save st input.data ⟨input.contentType, input.filename⟩ = some (b, st1) ∧
      deps.generateToken st1 = some (t, st2) ∧
      deps.put st2 t b (deps.nowMs + EXPIRY_DURATION_MS) = none) := by
  rcases uploadImage_cases input deps st with
      ⟨e0, hv, heq⟩ | ⟨hv, ⟨hs, heq⟩ | ⟨b, st1, hs, ⟨hg, heq⟩ |
        ⟨t, st2, hg, ⟨hp, heq⟩ | ⟨st3, hp, heq⟩⟩⟩⟩ <;> rw [heq] at h
  · simp only [Except.error.injEq] at h
    subst h
    exact ⟨fun e he => by rw [heq], fun hf => by simp at hf,
      fun hf => by simp at hf, fun hf => by simp at hf⟩
  · simp only [Except.error.injEq] at h
    subst h
    exact ⟨fun e he => by simp at he, fun _ => by rw [heq],
      fun hf => by simp at hf, fun hf => by simp at hf⟩
  · simp only [Except.error.injEq] at h
    subst h
    exact ⟨fun e he => by simp at he, fun hf => by simp at hf,
      fun _ => by rw [heq], fun hf => by simp at hf⟩
  · simp only [Except.error.injEq] at h
    subst h
    exact ⟨fun e he => by simp at he, fun hf => by simp at hf,
      fun hf => by simp at hf, fun _ => ⟨b, st1, t, st2, hs, hg, hp⟩⟩
  · simp at h

/-- C7 witness: the upload of an empty payload fails validation and the
invocation trace is empty, so blob store, token generator and metadata
index are all untouched. -/
theorem upload_fault_isolation_witness :
    (uploadImage ⟨[], "image/jpeg", none⟩ witnessDeps ()).snd.fst = [] :=
  (upload_fault_isolation ⟨[], "image/jpeg", none⟩ witnessDeps ()
    (.validation .emptyData) (by rfl)).1 .emptyData rfl

/-- C8: Upload invocation order. In every successful upload the
invocation trace is exactly blob store save, then token mint, then
metadata put: the save completes before the token generator is invoked,
which is invoked before the metadata put. -/
theorem upload_invocation_order {σ : Type} (input : UploadRequest)
    (deps : UploadDeps σ) (st : σ) (r : UploadResult)
    (h : (uploadImage input deps st).fst = .ok r) :
    (uploadImage input deps st).snd.fst =
      [.blobSave input.data ⟨input.contentType, input.filename⟩, .tokenMint,
        .metadataPut r.token r.blobRef r.expiresAtEpochMs] := by
  rcases uploadImage_cases input deps st with
      ⟨e0, hv, heq⟩ | ⟨hv, ⟨hs, heq⟩ | ⟨b, st1, hs, ⟨hg, heq⟩ |
        ⟨t, st2, hg, ⟨hp, heq⟩ | ⟨st3, hp, heq⟩⟩⟩⟩ <;> rw [heq] at h
  · simp at h
  · simp at h
  · simp at h
  · simp at h
  · simp only [Except.ok.injEq] at h
    subst h
    rw [heq]

/-- C8 witness: the trace of a successful concrete upload is save, then
mint, then put, in that order. -/
theorem upload_invocation_order_witness :
    (uploadImage ⟨[1], "image/jpeg", none⟩ witnessDeps ()).snd.fst =
      [.blobSave [1] ⟨"image/jpeg", none⟩, .tokenMint,
        .metadataPut "tok" "ref" 1060000] :=
  upload_invocation_order ⟨[1], "image/jpeg", none⟩ witnessDeps ()
    ⟨"tok", "ref", 1060000⟩ (by rfl)

/-- C6: Syntactic pre-check. For every access request whose token is the
empty string or consists only of whitespace, the result is denied with
reason invalid and the invocation trace is empty, so neither the metadata
index get nor the blob store get is invoked. -/
theorem blank_token_denied_invalid (token : String)
    (mget : String → Option TokenMetadata) (bget : String → Option (List Nat))
    (nowMs : Int) (h : token = "" ∨ token.data.all isJsWhitespace = true) :
    (accessImage token mget bget nowMs).fst = .ok (.denied .invalid) ∧
    (accessImage token mget bget nowMs).snd = [] := by
  have hbl : isBlankToken token = true := by
    rcases h with h | h
    · subst h; rfl
    · exact h
  constructor <;> simp [accessImage, hbl]

/-- C6 witness: accessing the empty token and the three-space token is
denied as invalid with no index or blob store invocation, even though
both stores could answer. -/
theorem blank_token_denied_invalid_witness :
    ((accessImage "" (fun _ => some ⟨"ref", 0⟩) (fun _ => some [7]) 0).fst =
        .ok (.denied .invalid) ∧
      (accessImage "" (fun _ => some ⟨"ref", 0⟩) (fun _ => some [7]) 0).snd = []) ∧
    ((accessImage "   " (fun _ => some ⟨"ref", 0⟩) (fun _ => some [7]) 0).fst =
        .ok (.denied .invalid) ∧
      (accessImage "   " (fun _ => some ⟨"ref", 0⟩) (fun _ => some [7]) 0).snd = []) :=
  ⟨blank_token_denied_invalid "" (fun _ => some ⟨"ref", 0⟩) (fun _ => some [7]) 0
      (.inl rfl),
    blank_token_denied_invalid "   " (fun _ => some ⟨"ref", 0⟩) (fun _ => some [7]) 0
      (.inr (by decide))⟩

/-- C10: Implicit size-cap boundary. validateUploadInput rejects an input
for size exactly when its byte length strictly exceeds 5 242 880 bytes;
in particular an input of exactly 5 242 880 bytes passes the size check. -/
theorem size_cap_boundary (input : UploadRequest)
    (supportedImageTypes : List String) :
    validateUploadInput input supportedImageTypes = .error .tooLarge ↔
      input.data.length > 5242880 := by
  have hmax : MAX_IMAGE_BYTES = 5242880 := by norm_num [MAX_IMAGE_BYTES]
  unfold validateUploadInput
  split
  · rename_i h0
    simp [h0]
  · split
    · rename_i hl
      rw [hmax] at hl
      simp [hl]
    · rename_i hl
      rw [hmax] at hl
      split
      · simp [hl]
      · split <;> simp [hl]

/-- Helper: the record most recently put wins in the association-list
metadata index. -/
theorem mdGet_cons_self (t : String) (md : TokenMetadata)
    (rest : List (String × TokenMetadata)) :
    mdGet ((t, md) :: rest) t = some md := by
  simp [mdGet]

/-- Helper: the blob most recently saved wins in the association-list
blob store. -/
theorem blobGet_cons_self (ref : String) (data : List Nat)
    (rest : List (String × List Nat)) :
    blobGet ((ref, data) :: rest) ref = some data := by
  simp [blobGet]

/-- C9: Round trip. For every accepted input, every non-blank minted
token, any initial store contents and any access clock reading within the
valid window, an upload against well-behaved stores followed by an access
with the returned token yields an allowed result whose bytes are
byte-identical to the uploaded bytes. -/
theorem upload_access_round_trip (input : UploadRequest) (token : String)
    (t0 t1 : Int) (st : Stores)
    (hTok : isBlankToken token = false)
    (hValid : validateUploadInput input
      (parseSupportedFileTypes "jpeg,jpg,png,webp") = .ok ())
    (hTime : t1 ≤ t0 + EXPIRY_DURATION_MS + CLOCK_SKEW_TOLERANCE_MS) :
    ∃ r : UploadResult,
      (uploadImage input (storeDeps t0 token) st).fst = .ok r ∧
      r.token = token ∧
      r.expiresAtEpochMs = t0 + EXPIRY_DURATION_MS ∧
      (accessImage r.token
          (mdGet (uploadImage input (storeDeps t0 token) st).snd.snd.metadata)
          (blobGet (uploadImage input (storeDeps t0 token) st).snd.snd.blobs)
          t1).fst =
        .ok (.allowed input.data ⟨r.token, r.blobRef, r.expiresAtEpochMs⟩) := by
  have heq : uploadImage input (storeDeps t0 token) st =
      (.ok ⟨token, freshBlobRef st.blobs, t0 + EXPIRY_DURATION_MS⟩,
        [.blobSave input.data ⟨input.contentType, input.filename⟩, .tokenMint,
          .metadataPut token (freshBlobRef st.blobs) (t0 + EXPIRY_DURATION_MS)],
        ⟨(token, ⟨freshBlobRef st.blobs, t0 + EXPIRY_DURATION_MS⟩) :: st.metadata,
          (freshBlobRef st.blobs, input.data) :: st.blobs⟩) := by
    simp [uploadImage, storeDeps, resolveSupportedFileTypes, hValid]
  have hnotexp : isTokenExpired t1 (t0 + EXPIRY_DURATION_MS) = false := by
    have h5 : CLOCK_SKEW_TOLERANCE_MS = 5000 := rfl
    have h60 : EXPIRY_DURATION_MS = 60000 := rfl
    rw [h60, h5] at hTime
    simp only [isTokenExpired, h5, h60, decide_eq_false_iff_not, not_lt]
    omega
  refine ⟨⟨token, freshBlobRef st.blobs, t0 + EXPIRY_DURATION_MS⟩, ?_, rfl, rfl, ?_⟩
  · rw [heq]
  · rw [heq]
    simp [accessImage, hTok, mdGet_cons_self, blobGet_cons_self, hnotexp]

/-- C9 witness: uploading one byte of image/jpeg at clock 1 000 000 into
empty stores and accessing the returned token at clock 1 030 000 yields
an allowed result carrying that byte. -/
theorem upload_access_round_trip_witness :
    ∃ r : UploadResult,
      (uploadImage ⟨[1], "image/jpeg", none⟩ (storeDeps 1000000 "tok")
          ⟨[], []⟩).fst = .ok r ∧
      r.token = "tok" ∧
      r.expiresAtEpochMs = 1000000 + EXPIRY_DURATION_MS ∧
      (accessImage r.token
          (mdGet (uploadImage ⟨[1], "image/jpeg", none⟩ (storeDeps 1000000 "tok")
            ⟨[], []⟩).snd.snd.metadata)
          (blobGet (uploadImage ⟨[1], "image/jpeg", none⟩ (storeDeps 1000000 "tok")
            ⟨[], []⟩).snd.snd.blobs)
          1030000).fst =
        .ok (.allowed [1] ⟨r.token, r.blobRef, r.expiresAtEpochMs⟩) :=
  upload_access_round_trip ⟨[1], "image/jpeg", none⟩ "tok" 1000000 1030000
    ⟨[], []⟩ (by decide) (by rfl)
    (by norm_num [EXPIRY_DURATION_MS, CLOCK_SKEW_TOLERANCE_MS])

/-- C3 counterexample: two uploads identical except for the declared MIME
type (image/jpeg versus image/png) both succeed, persist bit-identical
metadata-index contents, and the subsequent index get of the token
returns the same record in both runs; hence the record persisted in the
metadata index cannot contain the declared content type. -/
theorem metadata_record_content_type_counterexample :
    ((uploadImage ⟨[1], "image/jpeg", none⟩ (storeDeps 0 "tok") ⟨[], []⟩).fst =
      .ok ⟨"tok", "blob-0", 60000⟩) ∧
    ((uploadImage ⟨[1], "image/png", none⟩ (storeDeps 0 "tok") ⟨[], []⟩).fst =
      .ok ⟨"tok", "blob-0", 60000⟩) ∧
    ((uploadImage ⟨[1], "image/jpeg", none⟩ (storeDeps 0 "tok")
        ⟨[], []⟩).snd.snd.metadata =
      (uploadImage ⟨[1], "image/png", none⟩ (storeDeps 0 "tok")
        ⟨[], []⟩).snd.snd.metadata) ∧
    (mdGet (uploadImage ⟨[1], "image/jpeg", none⟩ (storeDeps 0 "tok")
        ⟨[], []⟩).snd.snd.metadata "tok" =
      mdGet (uploadImage ⟨[1], "image/png", none⟩ (storeDeps 0 "tok")
        ⟨[], []⟩).snd.snd.metadata "tok") :=
  ⟨rfl, rfl, rfl, rfl⟩

/-- C3 amended: for every successful upload, the record persisted in the
metadata index is the triple of token, blob reference and expiry instant,
with no content-type field; the declared MIME type is passed to the blob
store save options instead; and a subsequent index get of the token
returns exactly that two-field record. -/
theorem metadata_record_fields (input : UploadRequest) (token : String)
    (nowMs : Int) (st : Stores) (r : UploadResult)
    (h : (uploadImage input (storeDeps nowMs token) st).fst = .ok r) :
    UploadEvent.metadataPut r.token r.blobRef r.expiresAtEpochMs ∈
      (uploadImage input (storeDeps nowMs token) st).snd.fst ∧
    UploadEvent.blobSave input.data ⟨input.contentType, input.filename⟩ ∈
      (uploadImage input (storeDeps nowMs token) st).snd.fst ∧
    mdGet (uploadImage input (storeDeps nowMs token) st).snd.snd.metadata
        r.token = some ⟨r.blobRef, r.expiresAtEpochMs⟩ := by
  cases hval : validateUploadInput input
      (parseSupportedFileTypes "jpeg,jpg,png,webp") with
  | error e =>
    have hbad : (uploadImage input (storeDeps nowMs token) st).fst =
        .error (.validation e) := by
      simp [uploadImage, storeDeps, resolveSupportedFileTypes, hval]
    rw [hbad] at h
    simp at h
  | ok u =>
    cases u
    have heq : uploadImage input (storeDeps nowMs token) st =
        (.ok ⟨token, freshBlobRef st.blobs, nowMs + EXPIRY_DURATION_MS⟩,
          [.blobSave input.data ⟨input.contentType, input.filename⟩, .tokenMint,
            .metadataPut token (freshBlobRef st.blobs) (nowMs + EXPIRY_DURATION_MS)],
          ⟨(token, ⟨freshBlobRef st.blobs, nowMs + EXPIRY_DURATION_MS⟩) :: st.metadata,
            (freshBlobRef st.blobs, input.data) :: st.blobs⟩) := by
      simp [uploadImage, storeDeps, resolveSupportedFileTypes, hval]
    rw [heq] at h
    simp only [Except.ok.injEq] at h
    subst h
    rw [heq]
    exact ⟨by simp, by simp, mdGet_cons_self _ _ _⟩

/-- C3 amended witness: after the concrete jpeg upload, the index get of
the token returns the two-field record blob reference plus expiry. -/
theorem metadata_record_fields_witness :
    mdGet (uploadImage ⟨[1], "image/jpeg", none⟩ (storeDeps 0 "tok")
        ⟨[], []⟩).snd.snd.metadata "tok" = some ⟨"blob-0", 60000⟩ :=
  (metadata_record_fields ⟨[1], "image/jpeg", none⟩ "tok" 0 ⟨[], []⟩
    ⟨"tok", "blob-0", 60000⟩ (by rfl)).2.2

/-- C4: the token generator consumes 8 random bytes, so the set of all
tokens it can mint has at most 256 to the 8th elements, which is 2 to the
64th, strictly below the 2 to the 128th values required for 128 bits of
entropy; concretely each minted token has 8 characters. -/
theorem token_space_below_128_bits :
    (Finset.image (fun rb : Fin 8 → Fin 256 => TokenService.generateToken rb)
        Finset.univ).card < 2 ^ 128 ∧
    (TokenService.generateToken (fun _ => 0)).length = 8 := by
  constructor
  · have h1 : (Finset.image
        (fun rb : Fin 8 → Fin 256 => TokenService.generateToken rb)
        Finset.univ).card ≤ Fintype.card (Fin 8 → Fin 256) :=
      le_trans Finset.card_image_le (le_of_eq Finset.card_univ)
    have h2 : Fintype.card (Fin 8 → Fin 256) = 256 ^ 8 := by
      rw [Fintype.card_fun, Fintype.card_fin, Fintype.card_fin]
    exact lt_of_le_of_lt (h1.trans_eq h2) (by norm_num)
  · rfl

end ImageHospital


